/-
Verification of the Kitsune Blender-addon request/response orchestration core.

This file gives a shallow embedding, in Lean 4, of the parts of the Kitsune
repository that the specification's testable properties concern:

* the code extractor `format_code_for_execution` (src/api/__init__.py),
* the provider lookup `get_provider_instance` (src/api/__init__.py),
* the worker-thread wrapper `APIRequestThread.run` (src/api/__init__.py),
* the conversation-store operations of `KITSUNE_OT_send_message`
  (`execute`, `add_message`, `handle_response`) and of
  `KITSUNE_OT_delete_chat.execute` (src/ui.py),
* the per-provider HTTP adapters (src/api/anthropic.py, openai.py,
  google.py, deepseek.py), with the network modelled as an oracle
  `HttpCall -> HttpOutcome` since the vendored HTTP client is an external
  collaborator,
* the utility `truncate_string` (src/utils.py).

Python strings are modelled as `String` / `List Char`; Python `re` matching
for the one regex the extractor uses is implemented directly over `List Char`
(the pattern is simple enough that its backtracking behaviour is a
first-occurrence scan, argued in the comments at `findBlocksF`).  Whitespace
(`\s`, `str.strip`) is modelled over the ASCII whitespace characters, the only
ones relevant to the properties considered.  Exceptions are modelled by
explicit branches where the source can raise and catches; `bpy` UI state is
modelled by explicit records.
-/
import Mathlib

set_option linter.unusedVariables false

/-! ## Python text helpers -/

/-- ASCII whitespace, the characters matched by Python `\s` and stripped by
`str.strip()` over the texts considered here. -/
def isPySpace (c : Char) : Bool :=
  c = ' ' || c = '\t' || c = '\n' || c = '\r' || c = '\x0b' || c = '\x0c'

/-- Consume a maximal leading whitespace run, as the greedy `\s*` does. -/
def dropWS (s : List Char) : List Char := s.dropWhile isPySpace

/-- Python `str.strip()`: remove leading and trailing whitespace. -/
def stripChars (s : List Char) : List Char :=
  ((dropWS s).reverse.dropWhile isPySpace).reverse

/-- Python `str.strip()` on `String`s. -/
def pyStrip (s : String) : String := String.mk (stripChars s.toList)

/-- Python `str.split(sep)` for a one-character separator. -/
def splitOnChar (sep : Char) : List Char → List (List Char)
  | [] => [[]]
  | c :: cs =>
    if c = sep then [] :: splitOnChar sep cs
    else
      match splitOnChar sep cs with
      | l :: ls => (c :: l) :: ls
      | [] => [[c]]

/-- Python `path.split('/')[-1]`, used for attachment display names. -/
def lastPathComponent (p : String) : String :=
  String.mk ((splitOnChar '/' p.toList).getLastD [])

/-! ## Code extractor (src/api/__init__.py, `format_code_for_execution`)

The source searches `re.findall(r"```(?:python|bpy|blender)?\s*([\s\S]*?)```",
response)`.  Because the optional tag and the whitespace run contain no
backtick, the regex engine never needs to backtrack through them: a match
attempt at a position succeeds exactly when the position starts with the
triple-backtick fence and a closing fence occurs after the (greedily
consumed) tag and whitespace; the lazy group then extends to the first such
closing fence.  `re.findall` scans left to right, restarting one character
later after a failed attempt and after the closing fence of a successful
match.  `findBlocksF` implements exactly that scan; the fuel argument (always
at least the length of the remaining text) only serves structural
termination. -/

/-- The triple-backtick fence marker. -/
def fence : List Char := ['`', '`', '`']

/-- Greedy first-alternative match of the optional `(?:python|bpy|blender)?`
tag: none of the three alternatives is a prefix of another that could match
the same text, so the alternation is deterministic. -/
def dropTag (s : List Char) : List Char :=
  if s.take 6 = "python".toList then s.drop 6
  else if s.take 3 = "bpy".toList then s.drop 3
  else if s.take 7 = "blender".toList then s.drop 7
  else s

/-- Split a text at the first closing fence: returns the text before the
first occurrence of ``` and the text after it, or `none` when no fence
occurs.  This is where the lazy group `([\s\S]*?)` stops. -/
def splitAtFence : List Char → Option (List Char × List Char)
  | [] => none
  | c :: cs =>
    if (c :: cs).take 3 = fence then some ([], (c :: cs).drop 3)
    else
      match splitAtFence cs with
      | some (cap, rest) => some (c :: cap, rest)
      | none => none

/-- The `re.findall` scan described above, with explicit fuel. -/
def findBlocksF : Nat → List Char → List (List Char)
  | 0, _ => []
  | _ + 1, [] => []
  | n + 1, c :: cs =>
    if (c :: cs).take 3 = fence then
      match splitAtFence (dropWS (dropTag ((c :: cs).drop 3))) with
      | some (cap, rest) => cap :: findBlocksF n rest
      | none => findBlocksF n cs
    else findBlocksF n cs

/-- All captured fenced regions of a text, in order of occurrence.  Each scan
step shortens the remaining text by at least one character, so fuel equal to
the length is never exhausted. -/
def findBlocks (s : List Char) : List (List Char) := findBlocksF s.length s

/-- One step of Python `max(matches, key=len)`: keep the current maximum on
ties, so the first maximal element wins. -/
def pickLonger (acc y : List Char) : List Char :=
  if y.length > acc.length then y else acc

/-- Python `max(matches, key=len)` as an `Option` over a possibly empty
list. -/
def firstLongest : List (List Char) → Option (List Char)
  | [] => none
  | x :: xs => some (xs.foldl pickLonger x)

/-- The fallback test `line.strip().startswith('import bpy') or
line.strip().startswith('from bpy')`. -/
def lineStartsBpyImport (line : List Char) : Bool :=
  "import bpy".toList.isPrefixOf (stripChars line) ||
    "from bpy".toList.isPrefixOf (stripChars line)

/-- The fallback loop of `format_code_for_execution`: once a line passes
the test above, that line and all later lines are collected. -/
def fallbackScan : List (List Char) → Bool → List (List Char)
  | [], _ => []
  | l :: ls, in_code =>
    let in_code := in_code || lineStartsBpyImport l
    if in_code then l :: fallbackScan ls in_code else fallbackScan ls in_code

/-- `format_code_for_execution` (src/api/__init__.py lines 97-133): return
the longest fenced region stripped of surrounding whitespace; with no fenced
region, fall back to collecting the lines from the first `bpy` import on,
joined with newlines; otherwise `None`. -/
def format_code_for_execution (response : List Char) : Option (List Char) :=
  match firstLongest (findBlocks response) with
  | some m => some (stripChars m)
  | none =>
    let code_lines := fallbackScan (splitOnChar '\n' response) false
    if code_lines ≠ [] then some (List.intercalate ['\n'] code_lines)
    else none

/-! ## Completion values

Workers hand the UI a dict holding either a `"response"` key (success) or an
`"error"` key (any failure); `handle_response` dispatches on which key is
present. -/

/-- The completion value passed to the UI callback. -/
inductive ApiResult where
  | response (text : String)
  | error (msg : String)
  deriving DecidableEq, Repr

/-! ## Conversation store data model (src/ui.py property groups)

Only the fields the orchestration operations read or write are modelled;
purely visual fields (colours, view mode, per-message UI list index) are
omitted.  Index properties are modelled as `Nat`: the source only ever
stores values in `[0, len)` or clamps them there. -/

/-- `KitsuneAttachment` (src/ui.py lines 31-50, without the thumbnail id). -/
structure KitsuneAttachment where
  filepath : String
  name : String
  deriving DecidableEq, Repr

/-- `KitsuneChatMessage` (src/ui.py lines 53-97). -/
structure KitsuneChatMessage where
  message : String
  is_user : Bool
  timestamp : String
  has_code : Bool
  code : String
  attachments : List KitsuneAttachment
  has_attachments : Bool
  deriving DecidableEq, Repr

/-- A freshly added message as `add_message` builds it (src/ui.py lines
988-999): text, sender and timestamp set, attachment recorded when a path
was supplied. -/
def mkChatMessage (message_text : String) (is_user : Bool) (now : String)
    (attachment_path : String) : KitsuneChatMessage :=
  let base : KitsuneChatMessage :=
    { message := message_text, is_user := is_user, timestamp := now
      has_code := false, code := "", attachments := [], has_attachments := false }
  if attachment_path ≠ "" then
    { base with
      attachments := [{ filepath := attachment_path
                        name := lastPathComponent attachment_path }]
      has_attachments := true }
  else base

/-- `KitsuneChatSession` (src/ui.py lines 100-133). -/
structure KitsuneChatSession where
  name : String
  is_active : Bool
  messages : List KitsuneChatMessage
  scroll_position : Nat
  deriving DecidableEq, Repr

/-- `KitsuneUIProperties` (src/ui.py lines 136-244): the store.  `messages`
is the legacy top-level message collection that `add_message` and
`handle_response` fall back to whenever the active session holds no
messages yet. -/
structure KitsuneUIProperties where
  chat_input : String
  chat_sessions : List KitsuneChatSession
  active_session_index : Nat
  messages : List KitsuneChatMessage
  is_processing : Bool
  has_pending_code : Bool
  pending_code : String
  scroll_position : Nat
  temp_attachment_path : String
  deriving DecidableEq, Repr

/-- The preference fields the orchestration reads (src/preferences.py). -/
structure KitsunePreferences where
  api_provider : String
  max_conversation_length : Nat
  auto_scroll : Bool
  show_timestamps : Bool
  confirm_code_execution : Bool
  deriving DecidableEq, Repr

/-- Blender operator return values used by the embedded operators. -/
inductive OpResult where
  | FINISHED
  | CANCELLED
  deriving DecidableEq, Repr

/-! ## Conversation store operations (src/ui.py) -/

/-- The pure effect of one `add_message` append on the message collection it
targets (src/ui.py lines 989 and 1008-1013): append, then when
`max_conversation_length > 0` and the collection exceeds it, remove the
excess oldest messages from the front. -/
def add_message_history (max_length : Nat) (ms : List KitsuneChatMessage)
    (m : KitsuneChatMessage) : List KitsuneChatMessage :=
  let appended := ms ++ [m]
  if 0 < max_length ∧ max_length < appended.length then
    appended.drop (appended.length - max_length)
  else appended

/-- `KITSUNE_OT_send_message.add_message` (src/ui.py lines 979-1015).  The
body is wrapped in `try/except` that only logs; the one statement that can
raise is the active-session lookup, so an out-of-range index leaves the
store unchanged.  The target collection is the active session's only when
that session already holds messages, otherwise the legacy collection.  When
`auto_scroll` is set, the scroll position is set to `max(0, len - 15)` with
`len` counted after the append and before the trim. -/
def add_message (prefs : KitsunePreferences) (ui_props : KitsuneUIProperties)
    (message_text : String) (is_user : Bool) (attachment_path : String)
    (now : String) : KitsuneUIProperties :=
  if h : ui_props.active_session_index < ui_props.chat_sessions.length then
    let active_session := ui_props.chat_sessions.get ⟨ui_props.active_session_index, h⟩
    let toSession := 0 < active_session.messages.length
    let old := if toSession then active_session.messages else ui_props.messages
    let msg := mkChatMessage message_text is_user now attachment_path
    let scroll' := if prefs.auto_scroll then (old.length + 1) - 15
                   else ui_props.scroll_position
    let final := add_message_history prefs.max_conversation_length old msg
    let st1 :=
      if toSession then
        { ui_props with
          chat_sessions := ui_props.chat_sessions.set ui_props.active_session_index
            { active_session with messages := final } }
      else { ui_props with messages := final }
    { st1 with scroll_position := scroll' }
  else ui_props

/-- `KITSUNE_OT_send_message.handle_response` (src/ui.py lines 1017-1060),
run on the UI thread with the completion value.  `ctx_present` models the
`bpy.context is None` early return.  The active-session lookup at line 1027
precedes the clearing of `is_processing` at line 1031; when it raises, the
`except` at line 1059 only logs, so the store is returned unchanged with the
busy flag still set.  On an error completion a synthetic assistant message
is appended through `add_message`; on a success the assistant message is
appended directly (without the length trim), with extracted code attached
when `format_code_for_execution` returns a non-empty text. -/
def handle_response (prefs : KitsunePreferences) (ctx_present : Bool)
    (ui_props : KitsuneUIProperties) (result : ApiResult) (now : String) :
    KitsuneUIProperties :=
  if ctx_present then
    if h : ui_props.active_session_index < ui_props.chat_sessions.length then
      let active_session := ui_props.chat_sessions.get ⟨ui_props.active_session_index, h⟩
      let toSession := 0 < active_session.messages.length
      let st1 := { ui_props with is_processing := false }
      match result with
      | .error e => add_message prefs st1 ("Error: " ++ e) false "" now
      | .response response_text =>
        let msg0 : KitsuneChatMessage :=
          { message := response_text, is_user := false, timestamp := now
            has_code := false, code := "", attachments := [], has_attachments := false }
        let msg :=
          match format_code_for_execution response_text.toList with
          | some c => if c ≠ [] then { msg0 with has_code := true, code := String.mk c }
                      else msg0
          | none => msg0
        let old := if toSession then active_session.messages else st1.messages
        let newList := old ++ [msg]
        let st2 :=
          if toSession then
            { st1 with
              chat_sessions := st1.chat_sessions.set st1.active_session_index
                { active_session with messages := newList } }
          else { st1 with messages := newList }
        if prefs.auto_scroll then { st2 with scroll_position := newList.length - 15 }
        else st2
    else ui_props
  else ui_props

/-- External collaborators of `KITSUNE_OT_send_message.execute`: whether
`get_active_provider()` returns an instance, the outcome of
`preferences.validate_provider_api_key()`, and the wall clock. -/
structure SendEnv where
  provider_available : Bool
  key_valid : Bool
  validation_message : String
  now : String
  deriving DecidableEq, Repr

/-- Observable outcome of one `execute` run of the send operator: the store
afterwards, the operator status, whether an `APIRequestThread` was started,
and the messages surfaced through `self.report`. -/
structure SendOutcome where
  state : KitsuneUIProperties
  result : OpResult
  thread_started : Bool
  reports : List String
  deriving DecidableEq, Repr

/-- `KITSUNE_OT_send_message.execute` (src/ui.py lines 922-977).  The message
is the operator's `message` property when non-empty, else the stripped input
field.  The operator rejects an empty message, a missing provider and an
invalid key; it performs no check of `is_processing`.  Past validation it
appends the user message via `add_message`, clears the input field and the
pending attachment, sets the busy flag and starts the worker thread.  The
active-session lookup at line 948 can raise; the outer `except` then reports
the error and cancels. -/
def send_message_execute (prefs : KitsunePreferences) (env : SendEnv)
    (ui_props : KitsuneUIProperties) (self_message : String) : SendOutcome :=
  let message := if self_message ≠ "" then self_message else pyStrip ui_props.chat_input
  if message = "" then
    { state := ui_props, result := .CANCELLED, thread_started := false
      reports := ["Please enter a message"] }
  else if !env.provider_available then
    { state := ui_props, result := .CANCELLED, thread_started := false
      reports := ["Failed to initialize provider: " ++ prefs.api_provider] }
  else if !env.key_valid then
    { state := ui_props, result := .CANCELLED, thread_started := false
      reports := [env.validation_message] }
  else if ui_props.active_session_index < ui_props.chat_sessions.length then
    let st1 := add_message prefs ui_props message true ui_props.temp_attachment_path env.now
    let st2 := { st1 with chat_input := "", temp_attachment_path := ""
                          is_processing := true }
    { state := st2, result := .FINISHED, thread_started := true, reports := [] }
  else
    { state := ui_props, result := .CANCELLED, thread_started := false
      reports := ["Error: list index out of range"] }

/-- The chat panel disables the whole input container, send button included,
while a request is processing (src/ui.py line 517). -/
def input_container_enabled (ui_props : KitsuneUIProperties) : Bool :=
  !ui_props.is_processing

/-- Observable outcome of `KITSUNE_OT_delete_chat.execute`. -/
structure DeleteOutcome where
  state : KitsuneUIProperties
  result : OpResult
  deriving DecidableEq, Repr

/-- `KITSUNE_OT_delete_chat.execute` (src/ui.py lines 695-710): refuse to
delete when at most one session exists; otherwise remove the indexed session
and clamp the active index into range when it fell off the end. -/
def delete_chat_execute (ui_props : KitsuneUIProperties) (session_index : Nat) :
    DeleteOutcome :=
  if ui_props.chat_sessions.length ≤ 1 then
    { state := ui_props, result := .CANCELLED }
  else
    let sessions := ui_props.chat_sessions.eraseIdx session_index
    let idx :=
      if sessions.length ≤ ui_props.active_session_index then sessions.length - 1
      else ui_props.active_session_index
    { state := { ui_props with chat_sessions := sessions, active_session_index := idx }
      result := .FINISHED }

/-! ## Provider lookup (src/api/__init__.py, `get_provider_instance`) -/

/-- The four provider classes the registry maps ids to. -/
inductive APIProviderKind where
  | anthropic
  | google
  | deepseek
  | openai
  deriving DecidableEq, Repr

/-- `get_provider_instance` (src/api/__init__.py lines 72-95): dictionary
lookup over the four known ids; an unknown id is logged and `None` is
returned. -/
def get_provider_instance (provider_id : String) : Option APIProviderKind :=
  if provider_id = "anthropic" then some .anthropic
  else if provider_id = "google" then some .google
  else if provider_id = "deepseek" then some .deepseek
  else if provider_id = "openai" then some .openai
  else none

/-! ## String truncation (src/utils.py, `truncate_string`) -/

/-- `truncate_string` (src/utils.py lines 75-88).  Texts are modelled as
character lists and `max_length` as a `Nat`; for `max_length ≥ 3` the slice
`text[:max_length-3]` is `List.take (max_length - 3)`. -/
def truncate_string (text : List Char) (max_length : Nat) : List Char :=
  if text.length ≤ max_length then text
  else text.take (max_length - 3) ++ "...".toList

/-! ## HTTP adapters (src/api/anthropic.py, openai.py, google.py, deepseek.py)

The vendored HTTP client is an external collaborator; it is modelled as an
oracle from the observable parameters of a call (URL and timeout) to an
outcome.  Request headers and JSON bodies are built from the prompt, the
scene context and the shared system prompt and are opaque to the properties
considered, so they are not recorded in the call descriptor.  An outcome is
either a response object, a raised `requests.exceptions.Timeout`, or any
other raised exception with its message.  A response object is described by
the results of the accesses the adapters perform on it: the status code, the
raw text, the text content the adapter's 200-handling extracts when the
payload has the expected shape, and the view of `response.json()` used by
the error paths. -/

/-- The observable parameters of one vendored `requests.post`/`get` call. -/
structure HttpCall where
  url : String
  timeout : Nat
  deriving DecidableEq, Repr

/-- What the adapter's error path sees of `response.json()`: the call raises,
or parses without an `error` key, or parses with `error.message`. -/
inductive JsonView where
  | raises (msg : String)
  | noErrorKey
  | errorKey (msg : String)
  deriving DecidableEq, Repr

/-- A response object, described by the accesses the adapters perform. -/
structure HttpResponse where
  status_code : Nat
  text : String
  contentText : Option String
  json : JsonView
  deriving DecidableEq, Repr

/-- Outcome of a vendored HTTP call as the adapter observes it. -/
inductive HttpOutcome where
  | ok (response : HttpResponse)
  | timeout
  | exn (msg : String)
  deriving DecidableEq, Repr

/-- The network oracle. -/
abbrev Net := HttpCall → HttpOutcome

/-- The non-200 (and malformed-200, for Anthropic) classification shared by
the adapters (e.g. src/api/anthropic.py lines 175-181): prefer the vendor
error envelope's message, fall back to the bare status, and to status plus
raw text when `response.json()` raises. -/
def vendorErrorMessage (api_label : String) (response : HttpResponse) : String :=
  match response.json with
  | .errorKey m => api_label ++ " API error: " ++ m
  | .noErrorKey => api_label ++ " API error: " ++ toString response.status_code
  | .raises _ =>
      api_label ++ " API error: " ++ toString response.status_code ++ " - " ++ response.text

/-- `AnthropicProvider.send_request` (src/api/anthropic.py lines 115-203),
with the key and model read from preferences passed explicitly.  Returns the
calls made and the completions scheduled onto the UI thread via
`bpy.app.timers.register`.  A missing key short-circuits; a 200 whose
payload yields a text part schedules a success (the adapter performs no
emptiness check on the text); any other shape falls through to the vendor
error classification; `Timeout` and any other exception are caught and
become error completions. -/
def AnthropicProvider_send_request (api_key model : String) (net : Net) :
    List HttpCall × List ApiResult :=
  if api_key = "" then
    ([], [.error "No API key provided for Anthropic. Please set your API key in the addon preferences."])
  else
    let call : HttpCall := { url := "https://api.anthropic.com/v1/messages", timeout := 60 }
    match net call with
    | .timeout => ([call], [.error "Request to Anthropic API timed out. Please try again."])
    | .exn e => ([call], [.error ("Error communicating with Anthropic API: " ++ e)])
    | .ok response =>
      if response.status_code = 200 then
        match response.json with
        | .raises m => ([call], [.error ("Error communicating with Anthropic API: " ++ m)])
        | _ =>
          match response.contentText with
          | some t => ([call], [.response t])
          | none => ([call], [.error (vendorErrorMessage "Anthropic" response)])
      else ([call], [.error (vendorErrorMessage "Anthropic" response)])

/-- `OpenAIProvider.send_request` (src/api/openai.py lines 123-220).  Unlike
Anthropic, an empty extracted content string is rejected as an unexpected
response structure. -/
def OpenAIProvider_send_request (api_key model : String) (net : Net) :
    List HttpCall × List ApiResult :=
  if api_key = "" then
    ([], [.error "No API key provided for OpenAI. Please set your API key in the addon preferences."])
  else
    let call : HttpCall := { url := "https://api.openai.com/v1/chat/completions", timeout := 60 }
    match net call with
    | .timeout => ([call], [.error "Request to OpenAI API timed out. Please try again."])
    | .exn e => ([call], [.error ("Error communicating with OpenAI API: " ++ e)])
    | .ok response =>
      if response.status_code = 200 then
        match response.json with
        | .raises m => ([call], [.error ("Error communicating with OpenAI API: " ++ m)])
        | _ =>
          match response.contentText with
          | some t =>
            if t ≠ "" then ([call], [.response t])
            else ([call], [.error "Unexpected response structure from OpenAI API"])
          | none => ([call], [.error "Unexpected response structure from OpenAI API"])
      else ([call], [.error (vendorErrorMessage "OpenAI" response)])

/-- `DeepSeekProvider.send_request` (src/api/deepseek.py lines 99-196), the
same shape as the OpenAI adapter. -/
def DeepSeekProvider_send_request (api_key model : String) (net : Net) :
    List HttpCall × List ApiResult :=
  if api_key = "" then
    ([], [.error "No API key provided for DeepSeek. Please set your API key in the addon preferences."])
  else
    let call : HttpCall := { url := "https://api.deepseek.com/v1/chat/completions", timeout := 60 }
    match net call with
    | .timeout => ([call], [.error "Request to DeepSeek API timed out. Please try again."])
    | .exn e => ([call], [.error ("Error communicating with DeepSeek API: " ++ e)])
    | .ok response =>
      if response.status_code = 200 then
        match response.json with
        | .raises m => ([call], [.error ("Error communicating with DeepSeek API: " ++ m)])
        | _ =>
          match response.contentText with
          | some t =>
            if t ≠ "" then ([call], [.response t])
            else ([call], [.error "Unexpected response structure from DeepSeek API"])
          | none => ([call], [.error "Unexpected response structure from DeepSeek API"])
      else ([call], [.error (vendorErrorMessage "DeepSeek" response)])

/-- `GoogleProvider._convert_model_name` (src/api/google.py lines 32-44). -/
def GoogleProvider_convert_model_name (full_model_name : String) : String :=
  if "google/".toList.isPrefixOf full_model_name.toList then
    let m := full_model_name.toList.drop 7
    if ":free".toList.isSuffixOf m then String.mk (m.take (m.length - 5))
    else String.mk m
  else full_model_name

/-- The request URL `GoogleProvider.send_request` builds (src/api/google.py
lines 128-129), embedding the converted model name and the key; `model or
default` resolves an empty preference to the default model id. -/
def google_request_url (api_key model : String) : String :=
  "https://generativelanguage.googleapis.com/v1beta/models/" ++
    GoogleProvider_convert_model_name
      (if model = "" then "google/gemini-2.0-flash-001" else model) ++
    ":generateContent?key=" ++ api_key

/-- `GoogleProvider.send_request` (src/api/google.py lines 106-199).  A 200
with an unexpected candidate shape produces an explicit structure error; an
extracted candidate text is returned as a success without an emptiness
check. -/
def GoogleProvider_send_request (api_key model : String) (net : Net) :
    List HttpCall × List ApiResult :=
  if api_key = "" then
    ([], [.error "No API key provided for Google Gemini. Please set your API key in the addon preferences."])
  else
    let call : HttpCall := { url := google_request_url api_key model, timeout := 60 }
    match net call with
    | .timeout => ([call], [.error "Request to Google Gemini API timed out. Please try again."])
    | .exn e => ([call], [.error ("Error communicating with Google Gemini API: " ++ e)])
    | .ok response =>
      if response.status_code = 200 then
        match response.json with
        | .raises m => ([call], [.error ("Error communicating with Google Gemini API: " ++ m)])
        | _ =>
          match response.contentText with
          | some t => ([call], [.response t])
          | none => ([call], [.error "Unexpected response structure from Google Gemini API"])
      else ([call], [.error (vendorErrorMessage "Google Gemini" response)])

/-- `AnthropicProvider.validate_api_key` (src/api/anthropic.py lines 26-66):
local format checks, then an authenticated GET against the model-list
endpoint with a 10-second timeout; a non-200, non-401 status prefers the
vendor error envelope and otherwise reports the bare status. -/
def AnthropicProvider_validate_api_key (api_key : String) (net : Net) :
    List HttpCall × (Bool × String) :=
  if api_key = "" ∨ (pyStrip api_key).length < 10 then
    ([], (false, "API key appears to be invalid"))
  else if !("sk-ant-".toList.isPrefixOf api_key.toList) then
    ([], (false, "Anthropic API keys should start with 'sk-ant-'"))
  else
    let call : HttpCall := { url := "https://api.anthropic.com/v1/models", timeout := 10 }
    match net call with
    | .timeout => ([call], (false, "Connection to Anthropic API timed out"))
    | .exn e => ([call], (false, "Error validating API key: " ++ e))
    | .ok response =>
      if response.status_code = 200 then ([call], (true, "API key is valid"))
      else if response.status_code = 401 then
        ([call], (false, "Invalid API key: Authentication failed"))
      else
        match response.json with
        | .errorKey m => ([call], (false, "API error: " ++ m))
        | _ => ([call], (false, "API error: HTTP " ++ toString response.status_code))

/-- `OpenAIProvider.validate_api_key` (src/api/openai.py lines 25-64), the
same shape against the OpenAI model-list endpoint. -/
def OpenAIProvider_validate_api_key (api_key : String) (net : Net) :
    List HttpCall × (Bool × String) :=
  if api_key = "" ∨ (pyStrip api_key).length < 10 then
    ([], (false, "API key appears to be invalid"))
  else if !("sk-".toList.isPrefixOf api_key.toList) then
    ([], (false, "OpenAI API keys should start with 'sk-'"))
  else
    let call : HttpCall := { url := "https://api.openai.com/v1/models", timeout := 10 }
    match net call with
    | .timeout => ([call], (false, "Connection to OpenAI API timed out"))
    | .exn e => ([call], (false, "Error validating API key: " ++ e))
    | .ok response =>
      if response.status_code = 200 then ([call], (true, "API key is valid"))
      else if response.status_code = 401 then
        ([call], (false, "Invalid API key: Authentication failed"))
      else
        match response.json with
        | .errorKey m => ([call], (false, "API error: " ++ m))
        | _ => ([call], (false, "API error: HTTP " ++ toString response.status_code))

/-- `GoogleProvider.validate_api_key` (src/api/google.py lines 26-30): local
length check only, no network call. -/
def GoogleProvider_validate_api_key (api_key : String) :
    List HttpCall × (Bool × String) :=
  if api_key = "" ∨ (pyStrip api_key).length < 10 then
    ([], (false, "API key appears to be invalid"))
  else ([], (true, ""))

/-- `DeepSeekProvider.validate_api_key` (src/api/deepseek.py lines 26-34):
local length and prefix checks only, no network call. -/
def DeepSeekProvider_validate_api_key (api_key : String) :
    List HttpCall × (Bool × String) :=
  if api_key = "" ∨ (pyStrip api_key).length < 10 then
    ([], (false, "API key appears to be invalid"))
  else if !("sk-".toList.isPrefixOf api_key.toList) then
    ([], (false, "DeepSeek API keys typically start with 'sk-'"))
  else ([], (true, ""))

/-! ## Worker thread (src/api/__init__.py, `APIRequestThread`) -/

/-- What one worker-thread execution of an adapter's `send_request` did:
the completions it scheduled onto the UI thread before returning or
faulting, and the uncaught exception that escaped it, if any. -/
structure WorkerBehaviour where
  completions : List ApiResult
  fault : Option String
  deriving DecidableEq, Repr

/-- `APIRequestThread.run` (src/api/__init__.py lines 59-70): run the
adapter; when an exception escapes it, catch it, log it, and (when a
callback is present) schedule one error completion carrying the exception
message onto the UI thread via `bpy.app.timers.register`.  The `Except`
layer models exception propagation out of `run`: `ok` carries the
completions the UI will receive, in scheduling order. -/
def APIRequestThread_run (hasCallback : Bool) (b : WorkerBehaviour) :
    Except String (List ApiResult) :=
  match b.fault with
  | none => .ok b.completions
  | some e => .ok (b.completions ++ if hasCallback then [.error e] else [])


/-- The message collection an `add_message` call targets: the active
session's when it already holds messages, else the legacy collection
(src/ui.py line 986). -/
def targetMessages (st : KitsuneUIProperties) : List KitsuneChatMessage :=
  if h : st.active_session_index < st.chat_sessions.length then
    let active_session := st.chat_sessions.get ⟨st.active_session_index, h⟩
    if 0 < active_session.messages.length then active_session.messages else st.messages
  else st.messages

/-! ## Concrete fixtures used by counterexamples and witnesses -/

/-- Preferences with a message cap of one, auto-scroll off. -/
def prefsM1 : KitsunePreferences :=
  { api_provider := "anthropic", max_conversation_length := 1
    auto_scroll := false, show_timestamps := false, confirm_code_execution := false }

/-- A freshly created session with no messages, as the panel creates it. -/
def emptySession : KitsuneChatSession :=
  { name := "New Chat", is_active := true, messages := [], scroll_position := 0 }

/-- A store with one empty session and a pending input text. -/
def baseStore : KitsuneUIProperties :=
  { chat_input := "make a cube", chat_sessions := [emptySession]
    active_session_index := 0, messages := [], is_processing := false
    has_pending_code := false, pending_code := "", scroll_position := 0
    temp_attachment_path := "" }

/-- `baseStore` while a request is already in flight. -/
def busyStore : KitsuneUIProperties :=
  { baseStore with is_processing := true }

/-- A busy store whose session list is empty (the panel creates the first
session lazily, so this state exists before the first draw). -/
def noSessionBusyStore : KitsuneUIProperties :=
  { baseStore with chat_sessions := [], is_processing := true }

/-- External collaborators in their successful configuration. -/
def sampleEnv : SendEnv :=
  { provider_available := true, key_valid := true, validation_message := ""
    now := "2025-01-01 12:00:00" }

/-! ## Theorems -/

/-- C9: `get_provider_instance` returns an instance exactly for the four
known provider ids and `None` (without raising — the embedding is total) for
every other id. -/
theorem get_provider_instance_known_ids (provider_id : String) :
    (get_provider_instance provider_id).isSome =
      (provider_id == "anthropic" || provider_id == "google" ||
        provider_id == "deepseek" || provider_id == "openai") := by
  unfold get_provider_instance
  split_ifs with h1 h2 h3 h4 <;> simp_all

/-- C10: for `max_length ≥ 3`, `truncate_string` returns the text unchanged
when it fits, and otherwise a string of length exactly `max_length` whose
first `max_length - 3` characters are a prefix of the text and which ends in
the three-dot ellipsis. -/
theorem truncate_string_spec (text : List Char) (max_length : Nat)
    (h : 3 ≤ max_length) :
    (text.length ≤ max_length → truncate_string text max_length = text) ∧
    (max_length < text.length →
      (truncate_string text max_length).length = max_length ∧
      (truncate_string text max_length).take (max_length - 3) <+: text ∧
      "...".toList <:+ truncate_string text max_length) := by
  constructor
  · intro hle
    simp [truncate_string, hle]
  · intro hlt
    have hnot : ¬ text.length ≤ max_length := by omega
    refine ⟨?_, ?_, ?_⟩
    · rw [truncate_string, if_neg hnot, List.length_append, List.length_take]
      simp only [String.toList]
      simp
      omega
    · rw [truncate_string, if_neg hnot,
        List.take_append_of_le_length (by rw [List.length_take]; omega),
        List.take_take]
      exact List.take_prefix _ _
    · rw [truncate_string, if_neg hnot]
      exact List.suffix_append _ _

/-- C10 witness: truncating an 11-character text to 8 keeps 5 characters and
appends the ellipsis. -/
theorem truncate_string_spec_witness :
    (truncate_string "hello world".toList 8).length = 8 ∧
      truncate_string "hello world".toList 8 = "hello...".toList := by
  have h := (truncate_string_spec "hello world".toList 8 (by decide)).2 (by decide)
  exact ⟨h.1, by decide⟩

/-- C7: deleting when a single session remains is rejected and leaves the
store unchanged (so the count stays at least 1), and any successful deletion
leaves the active session index in range. -/
theorem delete_chat_spec (ui_props : KitsuneUIProperties) (session_index : Nat) :
    (ui_props.chat_sessions.length = 1 →
      delete_chat_execute ui_props session_index =
        { state := ui_props, result := .CANCELLED } ∧
      1 ≤ (delete_chat_execute ui_props session_index).state.chat_sessions.length) ∧
    (2 ≤ ui_props.chat_sessions.length →
      session_index < ui_props.chat_sessions.length →
      (delete_chat_execute ui_props session_index).result = .FINISHED ∧
      (delete_chat_execute ui_props session_index).state.chat_sessions.length =
        ui_props.chat_sessions.length - 1 ∧
      (delete_chat_execute ui_props session_index).state.active_session_index <
        (delete_chat_execute ui_props session_index).state.chat_sessions.length) := by
  constructor
  · intro h1
    have hle : ui_props.chat_sessions.length ≤ 1 := by omega
    refine ⟨by simp [delete_chat_execute, hle], ?_⟩
    simp [delete_chat_execute, hle, h1]
  · intro h2 hidx
    have hn : ¬ ui_props.chat_sessions.length ≤ 1 := by omega
    have herase : (ui_props.chat_sessions.eraseIdx session_index).length =
        ui_props.chat_sessions.length - 1 := by
      rw [List.length_eraseIdx]
      simp [hidx]
    refine ⟨by simp [delete_chat_execute, hn], ?_, ?_⟩
    · simp [delete_chat_execute, hn, herase]
    · simp only [delete_chat_execute, if_neg hn]
      split_ifs with hc <;> simp_all <;> omega

/-- C7 witness: with two sessions and the second active, deleting the first
succeeds and clamps the active index back into range. -/
theorem delete_chat_spec_witness :
    (delete_chat_execute
        { chat_input := "", chat_sessions :=
            [{ name := "Chat 1", is_active := false, messages := [], scroll_position := 0 },
             { name := "Chat 2", is_active := true, messages := [], scroll_position := 0 }]
          active_session_index := 1, messages := [], is_processing := false
          has_pending_code := false, pending_code := "", scroll_position := 0
          temp_attachment_path := "" } 0).result = .FINISHED ∧
    (delete_chat_execute
        { chat_input := "", chat_sessions :=
            [{ name := "Chat 1", is_active := false, messages := [], scroll_position := 0 },
             { name := "Chat 2", is_active := true, messages := [], scroll_position := 0 }]
          active_session_index := 1, messages := [], is_processing := false
          has_pending_code := false, pending_code := "", scroll_position := 0
          temp_attachment_path := "" } 0).state.active_session_index < 1 := by
  have h := (delete_chat_spec
    { chat_input := "", chat_sessions :=
        [{ name := "Chat 1", is_active := false, messages := [], scroll_position := 0 },
         { name := "Chat 2", is_active := true, messages := [], scroll_position := 0 }]
      active_session_index := 1, messages := [], is_processing := false
      has_pending_code := false, pending_code := "", scroll_position := 0
      temp_attachment_path := "" } 0).2 (by decide) (by decide)
  exact ⟨h.1, by decide⟩

/-- A successful `splitAtFence` decomposes its input as capture, fence,
remainder. -/
theorem splitAtFence_eq_append (s cap rest : List Char)
    (h : splitAtFence s = some (cap, rest)) : s = cap ++ fence ++ rest := by
  induction s generalizing cap rest with
  | nil => simp [splitAtFence] at h
  | cons c cs ih =>
    rw [splitAtFence] at h
    split_ifs at h with hf
    · simp only [Option.some.injEq, Prod.mk.injEq] at h
      obtain ⟨rfl, rfl⟩ := h
      simp only [List.nil_append]
      conv_lhs => rw [← List.take_append_drop 3 (c :: cs)]
      rw [hf]
    · cases hsp : splitAtFence cs with
      | none => rw [hsp] at h; simp at h
      | some pr =>
        obtain ⟨cap', rest'⟩ := pr
        rw [hsp] at h
        simp only [Option.some.injEq, Prod.mk.injEq] at h
        obtain ⟨rfl, rfl⟩ := h
        simp [ih cap' rest' hsp]

/-- `dropTag` only removes a prefix. -/
theorem dropTag_suffix (s : List Char) : dropTag s <:+ s := by
  unfold dropTag
  split_ifs <;> first | exact List.drop_suffix _ _ | exact List.suffix_refl _

/-- Every region the scan captures occurs verbatim inside the scanned
text. -/
theorem findBlocksF_substring (n : Nat) :
    ∀ s m : List Char, m ∈ findBlocksF n s → m <:+: s := by
  induction n with
  | zero => intro s m h; simp [findBlocksF] at h
  | succ n ih =>
    intro s m h
    match s with
    | [] => simp [findBlocksF] at h
    | c :: cs =>
      rw [findBlocksF] at h
      have hcons : cs <:+ c :: cs := List.suffix_cons c cs
      split_ifs at h with hf
      · cases hsp : splitAtFence (dropWS (dropTag ((c :: cs).drop 3))) with
        | none =>
          rw [hsp] at h
          exact (ih cs m h).trans hcons.isInfix
        | some pr =>
          obtain ⟨cap, rest⟩ := pr
          rw [hsp] at h
          have hin : dropWS (dropTag ((c :: cs).drop 3)) <:+ c :: cs :=
            ((List.dropWhile_suffix _).trans (dropTag_suffix _)).trans
              (List.drop_suffix 3 (c :: cs))
          have heq := splitAtFence_eq_append _ _ _ hsp
          rcases List.mem_cons.mp h with rfl | hm
          · have hcap : m <+: dropWS (dropTag ((c :: cs).drop 3)) := by
              rw [heq, List.append_assoc]
              exact List.prefix_append m (fence ++ rest)
            exact hcap.isInfix.trans hin.isInfix
          · have hrest : rest <:+ dropWS (dropTag ((c :: cs).drop 3)) := by
              rw [heq]
              exact List.suffix_append _ _
            exact (ih rest m hm).trans (hrest.trans hin).isInfix
      · exact (ih cs m h).trans hcons.isInfix

/-- Every captured fenced region is a verbatim substring of the text. -/
theorem findBlocks_substring (s m : List Char) (h : m ∈ findBlocks s) : m <:+: s :=
  findBlocksF_substring s.length s m h

/-- Stripping surrounding whitespace keeps a verbatim substring. -/
theorem stripChars_substring (s : List Char) : stripChars s <:+: s := by
  unfold stripChars
  have h1 : ((dropWS s).reverse.dropWhile isPySpace).reverse <+: dropWS s := by
    conv_rhs => rw [← List.reverse_reverse (dropWS s)]
    exact List.reverse_prefix.mpr (List.dropWhile_suffix _)
  exact h1.isInfix.trans (List.dropWhile_suffix _).isInfix

/-- Python `max(matches, key=len)`: the fold result is a maximal element and
the first maximal one — everything before it in the list is strictly
shorter. -/
theorem foldl_pickLonger_spec (xs : List (List Char)) :
    ∀ x : List Char,
      (∀ b ∈ x :: xs, b.length ≤ (xs.foldl pickLonger x).length) ∧
      ∃ pre suf, x :: xs = pre ++ (xs.foldl pickLonger x) :: suf ∧
        ∀ b ∈ pre, b.length < (xs.foldl pickLonger x).length := by
  induction xs with
  | nil =>
    intro x
    exact ⟨by simp, [], [], rfl, by simp⟩
  | cons y ys ih =>
    intro x
    rw [List.foldl_cons]
    by_cases hy : y.length > x.length
    · have hpick : pickLonger x y = y := by simp [pickLonger, hy]
      rw [hpick]
      obtain ⟨hmax, pre, suf, heq, hpre⟩ := ih y
      have hylen : y.length ≤ (ys.foldl pickLonger y).length := hmax y (by simp)
      constructor
      · intro b hb
        rcases List.mem_cons.mp hb with rfl | hb'
        · omega
        · exact hmax b hb'
      · refine ⟨x :: pre, suf, by rw [List.cons_append, ← heq], ?_⟩
        intro b hb
        rcases List.mem_cons.mp hb with rfl | hb'
        · omega
        · exact hpre b hb'
    · have hpick : pickLonger x y = x := by simp [pickLonger, hy]
      rw [hpick]
      obtain ⟨hmax, pre, suf, heq, hpre⟩ := ih x
      have hxlen : x.length ≤ (ys.foldl pickLonger x).length := hmax x (by simp)
      constructor
      · intro b hb
        rcases List.mem_cons.mp hb with rfl | hb'
        · exact hxlen
        · rcases List.mem_cons.mp hb' with rfl | hb''
          · omega
          · exact hmax b (by simp [hb''])
      · cases pre with
        | nil =>
          simp only [List.nil_append, List.cons.injEq] at heq
          obtain ⟨h1, h2⟩ := heq
          exact ⟨[], y :: ys, by rw [List.nil_append, ← h1], by simp⟩
        | cons p ps =>
          simp only [List.cons_append, List.cons.injEq] at heq
          obtain ⟨rfl, h2⟩ := heq
          have hxm : x.length < (ys.foldl pickLonger x).length := hpre x (by simp)
          refine ⟨x :: y :: ps, suf,
            by rw [List.cons_append, List.cons_append, ← h2], ?_⟩
          intro b hb
          rcases List.mem_cons.mp hb with rfl | hb'
          · exact hxm
          · rcases List.mem_cons.mp hb' with rfl | hb''
            · omega
            · exact hpre b (by simp [hb''])

/-- C5: when the text contains at least one fenced code region, the
extractor returns the longest captured region — ties broken by first
occurrence — with its surrounding whitespace stripped, and the returned
text is a verbatim contiguous substring of the input; a region carrying no
surrounding whitespace is returned unchanged. -/
theorem format_code_longest_block (response : List Char)
    (h : findBlocks response ≠ []) :
    ∃ m pre suf,
      findBlocks response = pre ++ m :: suf ∧
      (∀ b ∈ pre, b.length < m.length) ∧
      (∀ b ∈ findBlocks response, b.length ≤ m.length) ∧
      format_code_for_execution response = some (stripChars m) ∧
      stripChars m <:+: response ∧
      (stripChars m = m → format_code_for_execution response = some m) := by
  obtain ⟨x, xs, hxs⟩ : ∃ x xs, findBlocks response = x :: xs := by
    cases hfb : findBlocks response with
    | nil => exact absurd hfb h
    | cons a as => exact ⟨a, as, rfl⟩
  obtain ⟨hmax, pre, suf, heq, hpre⟩ := foldl_pickLonger_spec xs x
  have hfmt : format_code_for_execution response = some (stripChars (xs.foldl pickLonger x)) := by
    rw [format_code_for_execution, hxs]
    rfl
  have hmem : xs.foldl pickLonger x ∈ findBlocks response := by
    rw [hxs, heq]
    exact List.mem_append_right _ (List.mem_cons_self _ _)
  have hinf : stripChars (xs.foldl pickLonger x) <:+: response :=
    (stripChars_substring _).trans (findBlocks_substring response _ hmem)
  refine ⟨xs.foldl pickLonger x, pre, suf, by rw [hxs, heq], hpre, ?_, hfmt, hinf,
    fun h' => by rw [hfmt, h']⟩
  intro b hb
  rw [hxs] at hb
  exact hmax b hb

/-- C5 witness: a text with a 1-character and a 5-character fenced block —
the extractor picks the second block, verbatim. -/
theorem format_code_longest_block_witness :
    ∃ m pre suf,
      findBlocks "```a``` and ```bbbbb```".toList = pre ++ m :: suf ∧
      (∀ b ∈ pre, b.length < m.length) ∧
      (∀ b ∈ findBlocks "```a``` and ```bbbbb```".toList, b.length ≤ m.length) ∧
      format_code_for_execution "```a``` and ```bbbbb```".toList = some (stripChars m) ∧
      stripChars m <:+: "```a``` and ```bbbbb```".toList ∧
      (stripChars m = m →
        format_code_for_execution "```a``` and ```bbbbb```".toList = some m) :=
  format_code_longest_block "```a``` and ```bbbbb```".toList (by decide)

/-- With no line passing the import test, the fallback loop collects
nothing. -/
theorem fallbackScan_no_import (ls : List (List Char))
    (h : ∀ l ∈ ls, lineStartsBpyImport l = false) : fallbackScan ls false = [] := by
  induction ls with
  | nil => rfl
  | cons l ls ih =>
    rw [fallbackScan]
    simp [h l (List.mem_cons_self _ _)]
    exact ih fun l' hl' => h l' (List.mem_cons_of_mem _ hl')

/-- C6: with no fenced region and no line whose stripped form starts with a
`bpy` import, the extractor returns `None`; the embedding is a total
function, so no exception is raised. -/
theorem format_code_no_code (response : List Char)
    (h1 : findBlocks response = [])
    (h2 : ∀ l ∈ splitOnChar '\n' response, lineStartsBpyImport l = false) :
    format_code_for_execution response = none := by
  rw [format_code_for_execution, h1]
  simp only [firstLongest, fallbackScan_no_import _ h2]
  simp

/-- C6 witness: plain prose yields no code. -/
theorem format_code_no_code_witness :
    format_code_for_execution "hello world\nno code here".toList = none :=
  format_code_no_code "hello world\nno code here".toList (by decide) (by decide)

/-- C1 (amended): appends performed through `add_message` do keep the bound —
folding any sequence of messages through the append-then-trim step with cap
`M > 0` leaves exactly `min N M` messages, the last `M` appended, in their
original relative order. -/
theorem add_message_history_bounded (M : Nat) (hM : 0 < M)
    (msgs : List KitsuneChatMessage) :
    msgs.foldl (add_message_history M) [] = msgs.drop (msgs.length - M) ∧
    (msgs.foldl (add_message_history M) []).length = min msgs.length M := by
  have key : msgs.foldl (add_message_history M) [] = msgs.drop (msgs.length - M) := by
    induction msgs using List.reverseRecOn with
    | nil => simp
    | append_singleton xs x ih =>
      rw [List.foldl_append, List.foldl_cons, List.foldl_nil, ih]
      simp only [add_message_history]
      by_cases hc : xs.length < M
      · have h1 : xs.length - M = 0 := by omega
        rw [h1, List.drop_zero]
        rw [if_neg (by rw [List.length_append]; simp; omega)]
        have h2 : (xs ++ [x]).length - M = 0 := by
          rw [List.length_append]; simp; omega
        rw [h2, List.drop_zero]
      · push_neg at hc
        have hlenA : (xs.drop (xs.length - M)).length = M := by
          rw [List.length_drop]; omega
        rw [if_pos ⟨hM, by
          rw [List.length_append, hlenA, List.length_cons, List.length_nil]; omega⟩]
        have h1 : (xs.drop (xs.length - M) ++ [x]).length - M = 1 := by
          rw [List.length_append, hlenA, List.length_cons, List.length_nil]; omega
        have h2 : (xs ++ [x]).length - M = (xs.length - M) + 1 := by
          rw [List.length_append, List.length_cons, List.length_nil]; omega
        rw [h1, h2, List.drop_append_of_le_length (by rw [hlenA]; omega),
          List.drop_append_of_le_length (by omega), List.drop_drop]
  refine ⟨key, ?_⟩
  rw [key, List.length_drop]
  omega

/-- C1 witness: three appends with cap 2 keep the last two messages. -/
theorem add_message_history_bounded_witness :
    [mkChatMessage "a" true "t1" "", mkChatMessage "b" false "t2" "",
        mkChatMessage "c" true "t3" ""].foldl (add_message_history 2) [] =
      [mkChatMessage "b" false "t2" "", mkChatMessage "c" true "t3" ""] := by
  have h := add_message_history_bounded 2 (by decide)
    [mkChatMessage "a" true "t1" "", mkChatMessage "b" false "t2" "",
      mkChatMessage "c" true "t3" ""]
  rw [h.1]
  decide

/-- C1 counterexample: with `max_conversation_length = 1`, one send followed
by one successful completion leaves two messages in the conversation history
— the success path of `handle_response` appends without evicting, so the
count is not `min 2 1`. -/
theorem bounded_history_counterexample :
    (handle_response prefsM1 true
        (send_message_execute prefsM1 sampleEnv baseStore "").state
        (.response "here is code") "2025-01-01 12:00:05").messages.length ≠
      min 2 1 := by decide

/-- `add_message` never touches the busy flag. -/
theorem add_message_is_processing (prefs : KitsunePreferences)
    (st : KitsuneUIProperties) (t : String) (b : Bool) (a n : String) :
    (add_message prefs st t b a n).is_processing = st.is_processing := by
  rw [add_message]
  split
  · dsimp only
    split <;> rfl
  · rfl

/-- C3 (amended): when the UI context is present and the active session
index is within range, the busy flag is false after `handle_response`, for
every completion value. -/
theorem handle_response_clears_busy (prefs : KitsunePreferences)
    (ui_props : KitsuneUIProperties) (result : ApiResult) (now : String)
    (h : ui_props.active_session_index < ui_props.chat_sessions.length) :
    (handle_response prefs true ui_props result now).is_processing = false := by
  rw [handle_response, if_pos rfl, dif_pos h]
  cases result with
  | error e => rw [add_message_is_processing]
  | response t =>
    dsimp only
    split <;> split <;> rfl

/-- C3 witness: an in-range busy store has its flag cleared by an error
completion. -/
theorem handle_response_clears_busy_witness :
    (handle_response prefsM1 true busyStore (.error "x") "t").is_processing = false :=
  handle_response_clears_busy prefsM1 busyStore (.error "x") "t" (by decide)

/-- C3 counterexample: with an empty session list the session lookup raises
before the flag is cleared, the exception is swallowed, and the busy flag
remains true after the Applying step — for a success completion value. -/
theorem busy_flag_stuck_counterexample :
    (handle_response prefsM1 true noSessionBusyStore
        (.response "hi") "t").is_processing = true := by decide

/-- An append-then-trim step never empties the collection. -/
theorem add_message_history_length_pos (M : Nat) (ms : List KitsuneChatMessage)
    (m : KitsuneChatMessage) : 0 < (add_message_history M ms m).length := by
  rw [add_message_history]
  split_ifs with h
  · rw [List.length_drop]
    omega
  · simp


/-- `add_message` acts on the collection it targets exactly as the
append-then-trim step `add_message_history`. -/
theorem targetMessages_add_message (prefs : KitsunePreferences)
    (st : KitsuneUIProperties) (t : String) (b : Bool) (a n : String)
    (h : st.active_session_index < st.chat_sessions.length) :
    targetMessages (add_message prefs st t b a n) =
      add_message_history prefs.max_conversation_length (targetMessages st)
        (mkChatMessage t b n a) := by
  by_cases htg : 0 < (st.chat_sessions.get ⟨st.active_session_index, h⟩).messages.length
  · simp only [add_message, dif_pos h]
    simp only [htg, if_true]
    simp only [targetMessages, List.length_set, dif_pos h, List.get_set_eq,
      htg, if_true, add_message_history_length_pos]
  · simp only [add_message, dif_pos h]
    simp only [htg, if_false]
    simp only [targetMessages, dif_pos h, htg, if_false]

/-- C4 (amended): the send operator performs no busy-flag check.  Invoked
while `is_processing` is true, with a non-empty message, an available
provider, a valid key and an in-range session index, it proceeds: it
finishes, starts a worker thread, reports nothing (in particular no
already-processing message), and appends the user message to the targeted
collection.  Overlapping sends are prevented only by the chat panel
disabling the input container while the flag is set. -/
theorem send_message_ignores_busy_flag (prefs : KitsunePreferences)
    (env : SendEnv) (ui_props : KitsuneUIProperties) (self_message : String)
    (hbusy : ui_props.is_processing = true)
    (hmsg : (if self_message ≠ "" then self_message else pyStrip ui_props.chat_input) ≠ "")
    (hprov : env.provider_available = true)
    (hkey : env.key_valid = true)
    (hidx : ui_props.active_session_index < ui_props.chat_sessions.length) :
    (send_message_execute prefs env ui_props self_message).result = .FINISHED ∧
    (send_message_execute prefs env ui_props self_message).thread_started = true ∧
    (send_message_execute prefs env ui_props self_message).reports = [] ∧
    targetMessages (send_message_execute prefs env ui_props self_message).state =
      add_message_history prefs.max_conversation_length (targetMessages ui_props)
        (mkChatMessage
          (if self_message ≠ "" then self_message else pyStrip ui_props.chat_input)
          true env.now ui_props.temp_attachment_path) ∧
    input_container_enabled ui_props = false := by
  have hstep : send_message_execute prefs env ui_props self_message =
      { state := { add_message prefs ui_props
            (if self_message ≠ "" then self_message else pyStrip ui_props.chat_input)
            true ui_props.temp_attachment_path env.now with
            chat_input := "", temp_attachment_path := "", is_processing := true }
        result := .FINISHED, thread_started := true, reports := [] } := by
    rw [send_message_execute, if_neg hmsg, hprov, hkey]
    simp only [Bool.not_true, Bool.false_eq_true, if_false, if_pos hidx]
  rw [hstep]
  refine ⟨rfl, rfl, rfl, ?_, ?_⟩
  · have hsame : targetMessages
        { add_message prefs ui_props
            (if self_message ≠ "" then self_message else pyStrip ui_props.chat_input)
            true ui_props.temp_attachment_path env.now with
            chat_input := "", temp_attachment_path := "", is_processing := true } =
        targetMessages (add_message prefs ui_props
          (if self_message ≠ "" then self_message else pyStrip ui_props.chat_input)
          true ui_props.temp_attachment_path env.now) := rfl
    rw [hsame, targetMessages_add_message prefs ui_props _ true _ _ hidx]
  · rw [input_container_enabled, hbusy]
    rfl

/-- C4 witness: a busy store with valid input — the operator finishes and
starts the worker thread anyway. -/
theorem send_message_ignores_busy_flag_witness :
    (send_message_execute prefsM1 sampleEnv busyStore "").result = .FINISHED ∧
    (send_message_execute prefsM1 sampleEnv busyStore "").thread_started = true := by
  have h := send_message_ignores_busy_flag prefsM1 sampleEnv busyStore ""
    (by decide) (by decide) rfl rfl (by decide)
  exact ⟨h.1, h.2.1⟩

/-- C4 counterexample: with the busy flag set and a valid configuration the
send operator is not rejected — it starts a worker thread, appends a
message, and reports nothing about a request already being processed. -/
theorem busy_gating_counterexample :
    (send_message_execute prefsM1 sampleEnv busyStore "").thread_started = true ∧
    (send_message_execute prefsM1 sampleEnv busyStore "").state.messages.length =
      busyStore.messages.length + 1 ∧
    (send_message_execute prefsM1 sampleEnv busyStore "").reports = [] := by decide

/-- The Anthropic adapter schedules exactly one completion whatever the
network does. -/
theorem AnthropicProvider_send_request_single (api_key model : String) (net : Net) :
    ((AnthropicProvider_send_request api_key model net).2).length = 1 := by
  rw [AnthropicProvider_send_request]
  split_ifs with hk
  · rfl
  · dsimp only
    rcases net { url := "https://api.anthropic.com/v1/messages", timeout := 60 } with r | _ | e
    · dsimp only
      split_ifs with hs
      · rcases r.json with m | _ | m
        · rfl
        · rcases r.contentText with _ | t <;> rfl
        · rcases r.contentText with _ | t <;> rfl
      · rfl
    · rfl
    · rfl

/-- The OpenAI adapter schedules exactly one completion whatever the network
does. -/
theorem OpenAIProvider_send_request_single (api_key model : String) (net : Net) :
    ((OpenAIProvider_send_request api_key model net).2).length = 1 := by
  rw [OpenAIProvider_send_request]
  split_ifs with hk
  · rfl
  · dsimp only
    rcases net { url := "https://api.openai.com/v1/chat/completions", timeout := 60 } with r | _ | e
    · dsimp only
      split_ifs with hs
      · rcases r.json with m | _ | m
        · rfl
        · rcases r.contentText with _ | t
          · rfl
          · dsimp only; split_ifs <;> rfl
        · rcases r.contentText with _ | t
          · rfl
          · dsimp only; split_ifs <;> rfl
      · rfl
    · rfl
    · rfl

/-- The DeepSeek adapter schedules exactly one completion whatever the
network does. -/
theorem DeepSeekProvider_send_request_single (api_key model : String) (net : Net) :
    ((DeepSeekProvider_send_request api_key model net).2).length = 1 := by
  rw [DeepSeekProvider_send_request]
  split_ifs with hk
  · rfl
  · dsimp only
    rcases net { url := "https://api.deepseek.com/v1/chat/completions", timeout := 60 } with r | _ | e
    · dsimp only
      split_ifs with hs
      · rcases r.json with m | _ | m
        · rfl
        · rcases r.contentText with _ | t
          · rfl
          · dsimp only; split_ifs <;> rfl
        · rcases r.contentText with _ | t
          · rfl
          · dsimp only; split_ifs <;> rfl
      · rfl
    · rfl
    · rfl

/-- The Google adapter schedules exactly one completion whatever the network
does. -/
theorem GoogleProvider_send_request_single (api_key model : String) (net : Net) :
    ((GoogleProvider_send_request api_key model net).2).length = 1 := by
  rw [GoogleProvider_send_request]
  split_ifs with hk
  · rfl
  · dsimp only
    rcases net { url := google_request_url api_key model, timeout := 60 } with r | _ | e
    · dsimp only
      split_ifs with hs
      · rcases r.json with m | _ | m
        · rfl
        · rcases r.contentText with _ | t <;> rfl
        · rcases r.contentText with _ | t <;> rfl
      · rfl
    · rfl
    · rfl

/-- C2: the worker thread never lets an exception propagate, and when the
adapter call raises after scheduling nothing, exactly one completion — an
error value carrying the exception message — is delivered to the UI; the
concrete adapters themselves schedule exactly one completion for every
network outcome, so every dispatched request yields exactly one
completion. -/
theorem worker_exactly_one_completion (b : WorkerBehaviour) (e : String)
    (hf : b.fault = some e) (h0 : b.completions = []) :
    APIRequestThread_run true b = .ok [.error e] ∧
    (∀ b' : WorkerBehaviour, (APIRequestThread_run true b').isOk = true) ∧
    (∀ key model : String, ∀ net : Net,
      ((AnthropicProvider_send_request key model net).2).length = 1 ∧
      ((OpenAIProvider_send_request key model net).2).length = 1 ∧
      ((GoogleProvider_send_request key model net).2).length = 1 ∧
      ((DeepSeekProvider_send_request key model net).2).length = 1) := by
  refine ⟨?_, ?_, ?_⟩
  · rw [APIRequestThread_run, hf, h0]
    rfl
  · intro b'
    rw [APIRequestThread_run]
    rcases b'.fault with _ | e' <;> rfl
  · intro key model net
    exact ⟨AnthropicProvider_send_request_single key model net,
      OpenAIProvider_send_request_single key model net,
      GoogleProvider_send_request_single key model net,
      DeepSeekProvider_send_request_single key model net⟩

/-- C2 witness: a worker that faults with message `"boom"` before scheduling
anything delivers exactly the one internal-error completion. -/
theorem worker_exactly_one_completion_witness :
    APIRequestThread_run true { completions := [], fault := some "boom" } =
      .ok [.error "boom"] :=
  (worker_exactly_one_completion { completions := [], fault := some "boom" }
    "boom" rfl rfl).1

/-- With a key present, the Anthropic adapter makes exactly one generation
call, with a 60-second timeout. -/
theorem AnthropicProvider_send_request_calls (key model : String) (net : Net)
    (hk : key ≠ "") :
    (AnthropicProvider_send_request key model net).1 =
      [{ url := "https://api.anthropic.com/v1/messages", timeout := 60 }] := by
  rw [AnthropicProvider_send_request, if_neg hk]
  dsimp only
  rcases net { url := "https://api.anthropic.com/v1/messages", timeout := 60 } with r | _ | e
  · dsimp only
    split_ifs with hs
    · rcases r.json with m | _ | m
      · rfl
      · rcases r.contentText with _ | t <;> rfl
      · rcases r.contentText with _ | t <;> rfl
    · rfl
  · rfl
  · rfl

/-- With a key present, the OpenAI adapter makes exactly one generation
call, with a 60-second timeout. -/
theorem OpenAIProvider_send_request_calls (key model : String) (net : Net)
    (hk : key ≠ "") :
    (OpenAIProvider_send_request key model net).1 =
      [{ url := "https://api.openai.com/v1/chat/completions", timeout := 60 }] := by
  rw [OpenAIProvider_send_request, if_neg hk]
  dsimp only
  rcases net { url := "https://api.openai.com/v1/chat/completions", timeout := 60 } with r | _ | e
  · dsimp only
    split_ifs with hs
    · rcases r.json with m | _ | m
      · rfl
      · rcases r.contentText with _ | t
        · rfl
        · dsimp only; split_ifs <;> rfl
      · rcases r.contentText with _ | t
        · rfl
        · dsimp only; split_ifs <;> rfl
    · rfl
  · rfl
  · rfl

/-- With a key present, the DeepSeek adapter makes exactly one generation
call, with a 60-second timeout. -/
theorem DeepSeekProvider_send_request_calls (key model : String) (net : Net)
    (hk : key ≠ "") :
    (DeepSeekProvider_send_request key model net).1 =
      [{ url := "https://api.deepseek.com/v1/chat/completions", timeout := 60 }] := by
  rw [DeepSeekProvider_send_request, if_neg hk]
  dsimp only
  rcases net { url := "https://api.deepseek.com/v1/chat/completions", timeout := 60 } with r | _ | e
  · dsimp only
    split_ifs with hs
    · rcases r.json with m | _ | m
      · rfl
      · rcases r.contentText with _ | t
        · rfl
        · dsimp only; split_ifs <;> rfl
      · rcases r.contentText with _ | t
        · rfl
        · dsimp only; split_ifs <;> rfl
    · rfl
  · rfl
  · rfl

/-- With a key present, the Google adapter makes exactly one generation
call, with a 60-second timeout. -/
theorem GoogleProvider_send_request_calls (key model : String) (net : Net)
    (hk : key ≠ "") :
    (GoogleProvider_send_request key model net).1 =
      [{ url := google_request_url key model, timeout := 60 }] := by
  rw [GoogleProvider_send_request, if_neg hk]
  dsimp only
  rcases net { url := google_request_url key model, timeout := 60 } with r | _ | e
  · dsimp only
    split_ifs with hs
    · rcases r.json with m | _ | m
      · rfl
      · rcases r.contentText with _ | t <;> rfl
      · rcases r.contentText with _ | t <;> rfl
    · rfl
  · rfl
  · rfl

/-- C8: every provider's generation call carries a fixed 60-second timeout
and every credential-validation network call a 10-second timeout (the
Google and DeepSeek validators perform only local checks and make no
network call), and a timeout outcome is classified into the timed-out
failure completion — the adapters catch `requests.exceptions.Timeout`, so
no exception escapes (the embeddings are total). -/
theorem provider_timeouts (net : Net) (key model vkey : String)
    (hk : key ≠ "")
    (hv1 : ¬(vkey = "" ∨ (pyStrip vkey).length < 10))
    (hv2 : "sk-ant-".toList.isPrefixOf vkey.toList = true) :
    (AnthropicProvider_send_request key model net).1 =
      [{ url := "https://api.anthropic.com/v1/messages", timeout := 60 }] ∧
    (OpenAIProvider_send_request key model net).1 =
      [{ url := "https://api.openai.com/v1/chat/completions", timeout := 60 }] ∧
    (DeepSeekProvider_send_request key model net).1 =
      [{ url := "https://api.deepseek.com/v1/chat/completions", timeout := 60 }] ∧
    (GoogleProvider_send_request key model net).1 =
      [{ url := google_request_url key model, timeout := 60 }] ∧
    (AnthropicProvider_validate_api_key vkey net).1 =
      [{ url := "https://api.anthropic.com/v1/models", timeout := 10 }] ∧
    (OpenAIProvider_validate_api_key vkey net).1 =
      [{ url := "https://api.openai.com/v1/models", timeout := 10 }] ∧
    (GoogleProvider_validate_api_key vkey).1 = [] ∧
    (DeepSeekProvider_validate_api_key vkey).1 = [] ∧
    (net { url := "https://api.anthropic.com/v1/messages", timeout := 60 } = .timeout →
      (AnthropicProvider_send_request key model net).2 =
        [.error "Request to Anthropic API timed out. Please try again."]) ∧
    (net { url := "https://api.openai.com/v1/chat/completions", timeout := 60 } = .timeout →
      (OpenAIProvider_send_request key model net).2 =
        [.error "Request to OpenAI API timed out. Please try again."]) ∧
    (net { url := "https://api.deepseek.com/v1/chat/completions", timeout := 60 } = .timeout →
      (DeepSeekProvider_send_request key model net).2 =
        [.error "Request to DeepSeek API timed out. Please try again."]) ∧
    (net { url := google_request_url key model, timeout := 60 } = .timeout →
      (GoogleProvider_send_request key model net).2 =
        [.error "Request to Google Gemini API timed out. Please try again."]) ∧
    (net { url := "https://api.anthropic.com/v1/models", timeout := 10 } = .timeout →
      (AnthropicProvider_validate_api_key vkey net).2 =
        (false, "Connection to Anthropic API timed out")) ∧
    (net { url := "https://api.openai.com/v1/models", timeout := 10 } = .timeout →
      (OpenAIProvider_validate_api_key vkey net).2 =
        (false, "Connection to OpenAI API timed out")) := by
  have hv2o : "sk-".toList.isPrefixOf vkey.toList = true := by
    rw [List.isPrefixOf_iff_prefix] at hv2 ⊢
    exact List.IsPrefix.trans (by decide) hv2
  refine ⟨AnthropicProvider_send_request_calls key model net hk,
    OpenAIProvider_send_request_calls key model net hk,
    DeepSeekProvider_send_request_calls key model net hk,
    GoogleProvider_send_request_calls key model net hk,
    ?_, ?_, ?_, ?_, ?_, ?_, ?_, ?_, ?_, ?_⟩
  · rw [AnthropicProvider_validate_api_key, if_neg hv1, hv2]
    simp only [Bool.not_true, Bool.false_eq_true, if_false]
    rcases net { url := "https://api.anthropic.com/v1/models", timeout := 10 } with r | _ | e
    · dsimp only
      split_ifs with h200 h401
      · rfl
      · rfl
      · rcases r.json with m | _ | m <;> rfl
    · rfl
    · rfl
  · rw [OpenAIProvider_validate_api_key, if_neg hv1, hv2o]
    simp only [Bool.not_true, Bool.false_eq_true, if_false]
    rcases net { url := "https://api.openai.com/v1/models", timeout := 10 } with r | _ | e
    · dsimp only
      split_ifs with h200 h401
      · rfl
      · rfl
      · rcases r.json with m | _ | m <;> rfl
    · rfl
    · rfl
  · rw [GoogleProvider_validate_api_key, if_neg hv1]
  · rw [DeepSeekProvider_validate_api_key, if_neg hv1, hv2o]
    simp only [Bool.not_true, Bool.false_eq_true, if_false]
  · intro ht
    rw [AnthropicProvider_send_request, if_neg hk]
    dsimp only
    rw [ht]
  · intro ht
    rw [OpenAIProvider_send_request, if_neg hk]
    dsimp only
    rw [ht]
  · intro ht
    rw [DeepSeekProvider_send_request, if_neg hk]
    dsimp only
    rw [ht]
  · intro ht
    rw [GoogleProvider_send_request, if_neg hk]
    dsimp only
    rw [ht]
  · intro ht
    rw [AnthropicProvider_validate_api_key, if_neg hv1, hv2]
    simp only [Bool.not_true, Bool.false_eq_true, if_false]
    rw [ht]
  · intro ht
    rw [OpenAIProvider_validate_api_key, if_neg hv1, hv2o]
    simp only [Bool.not_true, Bool.false_eq_true, if_false]
    rw [ht]

/-- C8 witness: on a network that always times out, the Anthropic adapter
delivers the timed-out error completion and its validator reports the
timed-out connection. -/
theorem provider_timeouts_witness :
    (AnthropicProvider_send_request "sk-ant-0123456789" "m" (fun _ => .timeout)).2 =
      [.error "Request to Anthropic API timed out. Please try again."] ∧
    (AnthropicProvider_validate_api_key "sk-ant-0123456789" (fun _ => .timeout)).2 =
      (false, "Connection to Anthropic API timed out") := by
  have h := provider_timeouts (fun _ => .timeout) "sk-ant-0123456789" "m"
    "sk-ant-0123456789" (by decide) (by decide) (by decide)
  obtain ⟨_, _, _, _, _, _, _, _, h9, _, _, _, h13, _⟩ := h
  exact ⟨h9 rfl, h13 rfl⟩
